import Mathlib

/-!
Verification of the sandboxed-launch and rootfs-provisioning subsystem of the
firecracker-go-sdk fork (jailer.go, mount.go).  Go functions are shallowly
embedded as pure Lean functions; filesystem and syscall effects are modelled
by oracle records (a `World` structure assigning each underlying operation a
result) together with explicit event traces, and pointer mutation of the
configuration object becomes explicit state passing.
-/

namespace Firecracker

/-- Go error values are modelled by their message strings. -/
abbrev GoError := String

/-- The three-way outcome of a Go function body: normal return of `nil`,
return of a non-nil error, or a runtime panic (nil-pointer dereference). -/
inductive GoRes where
  | panicked : GoRes
  | err : GoError → GoRes
  | ok : GoRes
  deriving DecidableEq

/-- `StringValue` pointer helper of the repository (nil maps to `""`). -/
def StringValue (o : Option String) : String := o.getD ""

/-- `BoolValue` pointer helper of the repository (nil maps to `false`). -/
def BoolValue (o : Option Bool) : Bool := o.getD false

/-! ### Go `path/filepath` helpers (Unix rules), embedded over char lists -/

/-- Split a char list on `/` (mirrors `strings.Split(s, "/")`). -/
def splitSlashAux : List Char → List Char → List (List Char)
  | [], acc => [acc.reverse]
  | c :: cs, acc =>
    if c = '/' then acc.reverse :: splitSlashAux cs []
    else splitSlashAux cs (c :: acc)

/-- Join components with `/` separators. -/
def joinSlash : List (List Char) → List Char
  | [] => []
  | [x] => x
  | x :: y :: xs => x ++ '/' :: joinSlash (y :: xs)

/-- The component stack of Go `path.Clean`: drop empty and `.` components,
resolve `..` against the stack (rooted paths absorb leading `..`). -/
def cleanStack (rooted : Bool) : List (List Char) → List (List Char) → List (List Char)
  | [], st => st
  | c :: cs, st =>
    if c = [] ∨ c = ['.'] then cleanStack rooted cs st
    else if c = ['.', '.'] then
      match st with
      | [] => cleanStack rooted cs (if rooted then [] else [['.', '.']])
      | top :: rest =>
        if top = ['.', '.'] then cleanStack rooted cs (c :: top :: rest)
        else cleanStack rooted cs rest
    else cleanStack rooted cs (c :: st)

/-- Go `path.Clean` on a char list. -/
def pathCleanChars (p : List Char) : List Char :=
  if p = [] then ['.']
  else
    let rooted := p.head? = some '/'
    let comps := splitSlashAux p []
    let st := cleanStack rooted comps []
    let body := joinSlash st.reverse
    if rooted then
      if body = [] then ['/'] else '/' :: body
    else
      if body = [] then ['.'] else body

/-- Go `path.Clean` (= `filepath.Clean` on Unix). -/
def pathClean (p : String) : String := String.mk (pathCleanChars p.data)

/-- Go `filepath.Join`: skip leading empty elements, join with `/`, clean. -/
def filepathJoin (elems : List String) : String :=
  match elems.dropWhile (fun e => e = "") with
  | [] => ""
  | es => pathClean (String.mk (joinSlash (es.map String.data)))

/-- Go `filepath.Base`: `"."` on empty input, strip trailing separators,
take the last component, `"/"` when only separators remain. -/
def filepathBase (p : String) : String :=
  if p = "" then "."
  else
    let cs := p.data.reverse.dropWhile (fun c => c == '/')
    if cs = [] then "/"
    else String.mk ((cs.takeWhile (fun c => !(c == '/'))).reverse)

/-- Go `strconv.Itoa` on the embedded integers. -/
def itoa (i : Int) : String := toString i

example : filepathBase "/img/vmlinux" = "vmlinux" := by decide
example : filepathBase "disk.img" = "disk.img" := by decide
example : filepathBase "///" = "/" := by decide
example : filepathBase "" = "." := by decide
example : filepathJoin ["/srv/jailer", "firecracker", "id1", "root"]
    = "/srv/jailer/firecracker/id1/root" := by decide
example : filepathJoin ["", "a", "b"] = "a/b" := by decide
example : pathClean "/a//b/./c/../d" = "/a/b/d" := by decide
example : itoa (-5) = "-5" := by decide
example : itoa 123 = "123" := by decide

/-! ### Constants of jailer.go -/

def defaultJailerPath : String := "/srv/jailer"
def defaultJailerBin : String := "jailer"
def rootfsFolderName : String := "root"

/-! ### JailerCommandBuilder (jailer.go lines 107–358)

`io.Reader`/`io.Writer` stream handles are modelled as opaque `Option Nat`
descriptors (`none` is the Go `nil` interface). -/

structure JailerCommandBuilder where
  bin : String := ""
  id : String := ""
  uid : Int := 0
  gid : Int := 0
  execFile : String := ""
  node : Int := 0
  chrootBaseDir : String := ""
  netNS : String := ""
  daemonize : Bool := false
  seccompLevel : Int := 0
  stdin : Option Nat := none
  stdout : Option Nat := none
  stderr : Option Nat := none
  deriving DecidableEq

def JailerCommandBuilder.Bin (b : JailerCommandBuilder) : String :=
  if b.bin.length = 0 then defaultJailerBin else b.bin

def JailerCommandBuilder.WithBin (b : JailerCommandBuilder) (v : String) :
    JailerCommandBuilder := { b with bin := v }

def JailerCommandBuilder.ID (b : JailerCommandBuilder) : List String :=
  ["--id", b.id]

def JailerCommandBuilder.WithID (b : JailerCommandBuilder) (v : String) :
    JailerCommandBuilder := { b with id := v }

def JailerCommandBuilder.UID (b : JailerCommandBuilder) : List String :=
  ["--uid", itoa b.uid]

def JailerCommandBuilder.WithUID (b : JailerCommandBuilder) (v : Int) :
    JailerCommandBuilder := { b with uid := v }

def JailerCommandBuilder.GID (b : JailerCommandBuilder) : List String :=
  ["--gid", itoa b.gid]

def JailerCommandBuilder.WithGID (b : JailerCommandBuilder) (v : Int) :
    JailerCommandBuilder := { b with gid := v }

def JailerCommandBuilder.ExecFile (b : JailerCommandBuilder) : List String :=
  ["--exec-file", b.execFile]

def JailerCommandBuilder.WithExecFile (b : JailerCommandBuilder) (v : String) :
    JailerCommandBuilder := { b with execFile := v }

def JailerCommandBuilder.NumaNode (b : JailerCommandBuilder) : List String :=
  ["--node", itoa b.node]

def JailerCommandBuilder.WithNumaNode (b : JailerCommandBuilder) (v : Int) :
    JailerCommandBuilder := { b with node := v }

def JailerCommandBuilder.ChrootBaseDir (b : JailerCommandBuilder) : List String :=
  ["--chroot-base-dir", b.chrootBaseDir]

def JailerCommandBuilder.WithChrootBaseDir (b : JailerCommandBuilder) (v : String) :
    JailerCommandBuilder := { b with chrootBaseDir := v }

def JailerCommandBuilder.NetNS (b : JailerCommandBuilder) : List String :=
  ["--netns", b.netNS]

def JailerCommandBuilder.WithNetNS (b : JailerCommandBuilder) (v : String) :
    JailerCommandBuilder := { b with netNS := v }

def JailerCommandBuilder.WithDaemonize (b : JailerCommandBuilder) (v : Bool) :
    JailerCommandBuilder := { b with daemonize := v }

def JailerCommandBuilder.SeccompLevel (b : JailerCommandBuilder) : List String :=
  ["--seccomp-level", itoa b.seccompLevel]

def JailerCommandBuilder.WithSeccompLevel (b : JailerCommandBuilder) (v : Int) :
    JailerCommandBuilder := { b with seccompLevel := v }

def JailerCommandBuilder.Stdout (b : JailerCommandBuilder) : Option Nat := b.stdout

def JailerCommandBuilder.WithStdout (b : JailerCommandBuilder) (v : Option Nat) :
    JailerCommandBuilder := { b with stdout := v }

def JailerCommandBuilder.Stderr (b : JailerCommandBuilder) : Option Nat := b.stderr

def JailerCommandBuilder.WithStderr (b : JailerCommandBuilder) (v : Option Nat) :
    JailerCommandBuilder := { b with stderr := v }

def JailerCommandBuilder.Stdin (b : JailerCommandBuilder) : Option Nat := b.stdin

def JailerCommandBuilder.WithStdin (b : JailerCommandBuilder) (v : Option Nat) :
    JailerCommandBuilder := { b with stdin := v }

/-- `JailerCommandBuilder.Args` (jailer.go lines 130–153). -/
def JailerCommandBuilder.Args (b : JailerCommandBuilder) : List String :=
  b.ID ++ b.UID ++ b.GID ++ b.ExecFile ++ b.NumaNode
    ++ (if 0 < b.chrootBaseDir.length then b.ChrootBaseDir else [])
    ++ (if 0 < b.netNS.length then b.NetNS else [])
    ++ b.SeccompLevel
    ++ (if b.daemonize then ["--daemonize"] else [])

/-- The not-yet-started process descriptor produced by `Build` (`exec.Cmd`). -/
structure CmdModel where
  bin : String
  args : List String
  stdin : Option Nat := none
  stdout : Option Nat := none
  stderr : Option Nat := none
  deriving DecidableEq

/-- `JailerCommandBuilder.Build` (jailer.go lines 337–358): the `exec.Cmd`
stream fields start out nil and are assigned only when the builder holds a
non-nil stream, which coincides with copying the `Option` fields. -/
def JailerCommandBuilder.Build (b : JailerCommandBuilder) : CmdModel :=
  { bin := b.Bin, args := b.Args,
    stdin := b.Stdin, stdout := b.Stdout, stderr := b.Stderr }

/-- A Go string has positive length exactly when it is not the empty string. -/
theorem string_length_pos_iff_ne_empty (s : String) : 0 < s.length ↔ s ≠ "" := by
  cases s with
  | mk data =>
    cases data with
    | nil => simp [String.length]
    | cons c cs =>
      simp only [String.length]
      constructor
      · intro _ h
        exact List.cons_ne_nil c cs (congrArg String.data h)
      · intro _
        exact Nat.succ_pos _

/-- C3: for every builder state, `Args()` returns the argument vector in the
fixed order `--id`, `--uid`, `--gid`, `--exec-file`, `--node`, then
`--chroot-base-dir`, then `--netns`, then `--seccomp-level`, then a trailing
valueless `--daemonize`; the `--chroot-base-dir` and `--netns` pairs appear iff
their stored values are non-empty, and `--daemonize` appears iff the daemonize
flag is set, while all other flags are always present. -/
theorem claim3_args_fixed_order (b : JailerCommandBuilder) :
    b.Args =
      ["--id", b.id, "--uid", itoa b.uid, "--gid", itoa b.gid,
        "--exec-file", b.execFile, "--node", itoa b.node]
      ++ (if b.chrootBaseDir ≠ "" then ["--chroot-base-dir", b.chrootBaseDir] else [])
      ++ (if b.netNS ≠ "" then ["--netns", b.netNS] else [])
      ++ ["--seccomp-level", itoa b.seccompLevel]
      ++ (if b.daemonize then ["--daemonize"] else []) := by
  have hc := string_length_pos_iff_ne_empty b.chrootBaseDir
  have hn := string_length_pos_iff_ne_empty b.netNS
  simp [JailerCommandBuilder.Args, JailerCommandBuilder.ID, JailerCommandBuilder.UID,
    JailerCommandBuilder.GID, JailerCommandBuilder.ExecFile, JailerCommandBuilder.NumaNode,
    JailerCommandBuilder.ChrootBaseDir, JailerCommandBuilder.NetNS,
    JailerCommandBuilder.SeccompLevel, hc, hn]

/-- C8: every `With*` setter returns a builder whose updated field is the new
value and whose every other field is that of the receiver; since the embedding
is by value (as are the Go value receivers), the receiver itself is unchanged
and accessors, `Args` and `Build` are pure, so a builder value can be reused
for default-then-override construction. -/
theorem claim8_setters_pure_frame (b : JailerCommandBuilder)
    (bin' id' execFile' chrootBaseDir' netNS' : String) (uid' gid' node' seccompLevel' : Int)
    (daemonize' : Bool) (stdin' stdout' stderr' : Option Nat) :
    b.WithBin bin' = ⟨bin', b.id, b.uid, b.gid, b.execFile, b.node, b.chrootBaseDir,
        b.netNS, b.daemonize, b.seccompLevel, b.stdin, b.stdout, b.stderr⟩
    ∧ b.WithID id' = ⟨b.bin, id', b.uid, b.gid, b.execFile, b.node, b.chrootBaseDir,
        b.netNS, b.daemonize, b.seccompLevel, b.stdin, b.stdout, b.stderr⟩
    ∧ b.WithUID uid' = ⟨b.bin, b.id, uid', b.gid, b.execFile, b.node, b.chrootBaseDir,
        b.netNS, b.daemonize, b.seccompLevel, b.stdin, b.stdout, b.stderr⟩
    ∧ b.WithGID gid' = ⟨b.bin, b.id, b.uid, gid', b.execFile, b.node, b.chrootBaseDir,
        b.netNS, b.daemonize, b.seccompLevel, b.stdin, b.stdout, b.stderr⟩
    ∧ b.WithExecFile execFile' = ⟨b.bin, b.id, b.uid, b.gid, execFile', b.node,
        b.chrootBaseDir, b.netNS, b.daemonize, b.seccompLevel, b.stdin, b.stdout, b.stderr⟩
    ∧ b.WithNumaNode node' = ⟨b.bin, b.id, b.uid, b.gid, b.execFile, node',
        b.chrootBaseDir, b.netNS, b.daemonize, b.seccompLevel, b.stdin, b.stdout, b.stderr⟩
    ∧ b.WithChrootBaseDir chrootBaseDir' = ⟨b.bin, b.id, b.uid, b.gid, b.execFile, b.node,
        chrootBaseDir', b.netNS, b.daemonize, b.seccompLevel, b.stdin, b.stdout, b.stderr⟩
    ∧ b.WithNetNS netNS' = ⟨b.bin, b.id, b.uid, b.gid, b.execFile, b.node,
        b.chrootBaseDir, netNS', b.daemonize, b.seccompLevel, b.stdin, b.stdout, b.stderr⟩
    ∧ b.WithDaemonize daemonize' = ⟨b.bin, b.id, b.uid, b.gid, b.execFile, b.node,
        b.chrootBaseDir, b.netNS, daemonize', b.seccompLevel, b.stdin, b.stdout, b.stderr⟩
    ∧ b.WithSeccompLevel seccompLevel' = ⟨b.bin, b.id, b.uid, b.gid, b.execFile, b.node,
        b.chrootBaseDir, b.netNS, b.daemonize, seccompLevel', b.stdin, b.stdout, b.stderr⟩
    ∧ b.WithStdin stdin' = ⟨b.bin, b.id, b.uid, b.gid, b.execFile, b.node,
        b.chrootBaseDir, b.netNS, b.daemonize, b.seccompLevel, stdin', b.stdout, b.stderr⟩
    ∧ b.WithStdout stdout' = ⟨b.bin, b.id, b.uid, b.gid, b.execFile, b.node,
        b.chrootBaseDir, b.netNS, b.daemonize, b.seccompLevel, b.stdin, stdout', b.stderr⟩
    ∧ b.WithStderr stderr' = ⟨b.bin, b.id, b.uid, b.gid, b.execFile, b.node,
        b.chrootBaseDir, b.netNS, b.daemonize, b.seccompLevel, b.stdin, b.stdout, stderr'⟩
    ∧ (b.WithUID uid').WithUID gid' = b.WithUID gid'
    ∧ (b.WithStdout stdout').Build
        = { bin := b.Bin, args := b.Args, stdin := b.stdin, stdout := stdout',
            stderr := b.stderr } := by
  refine ⟨rfl, rfl, rfl, rfl, rfl, rfl, rfl, rfl, rfl, rfl, rfl, rfl, rfl, rfl, ?_⟩
  simp [JailerCommandBuilder.Build, JailerCommandBuilder.Bin, JailerCommandBuilder.Args,
    JailerCommandBuilder.WithStdout, JailerCommandBuilder.ID, JailerCommandBuilder.UID,
    JailerCommandBuilder.GID, JailerCommandBuilder.ExecFile, JailerCommandBuilder.NumaNode,
    JailerCommandBuilder.ChrootBaseDir, JailerCommandBuilder.NetNS,
    JailerCommandBuilder.SeccompLevel, JailerCommandBuilder.Stdin,
    JailerCommandBuilder.Stdout, JailerCommandBuilder.Stderr]

/-! ### Filesystem / syscall effect traces -/

/-- One observable side effect of the provisioning, mounting or teardown code.
Each constructor corresponds to one underlying operation of the source:
`os.Link`, `os.Chown`, `syscall.Unmount(…, MNT_FORCE)`, the `os.Stat`
existence probe, the two `nsenter` child commands of `bindMount`,
`os.Create`, the two `syscall.Mount` calls of `mounter.Mount`, `unix.Open`
on a namespace handle, `unix.Setns`, and the `runtime` thread pinning pair. -/
inductive FsEvent where
  | linkFile (src dst : String)
  | chownFile (path : String) (uid gid : Int)
  | unmountPath (path : String)
  | statSrc (src : String)
  | execTouch (pid : Int) (target : String)
  | execBindMount (pid : Int) (src target : String)
  | createFile (target : String)
  | mountBindSys (src target : String)
  | remountReadOnly (src target : String)
  | openNSFile (path : String)
  | setNS (ns : Int)
  | lockThread
  | unlockThread
  deriving DecidableEq

/-! ### Data model: drives, jailer configuration, machine configuration -/

/-- `models.Drive`, restricted to the fields the jailer code reads:
`PathOnHost *string` and `IsReadOnly *bool`. -/
structure Drive where
  pathOnHost : Option String := none
  isReadOnly : Option Bool := none
  deriving DecidableEq

/-- `NaiveDevMapperStrategy` (jailer.go lines 432–437). -/
structure NaiveDevMapperStrategy where
  Rootfs : String
  KernelImagePath : String
  deriving DecidableEq

/-- `BindMountDevMapperStrategy` (jailer.go lines 465–469). -/
structure BindMountDevMapperStrategy where
  data : String
  deriving DecidableEq

/-- The `HandlersAdaptor` interface value stored in `JailerConfig`, as the
tagged union of its two implementations in the source. -/
inductive HandlersAdaptor where
  | naive : NaiveDevMapperStrategy → HandlersAdaptor
  | bindMount : BindMountDevMapperStrategy → HandlersAdaptor
  deriving DecidableEq

/-- `JailerConfig` (jailer.go lines 50–93); `*int` fields become `Option Int`. -/
structure JailerConfig where
  gid : Option Int := none
  uid : Option Int := none
  id : String := ""
  numaNode : Option Int := none
  execFile : String := ""
  chrootBaseDir : String := ""
  netNS : String := ""
  daemonize : Bool := false
  seccompLevel : Int := 0
  devMapperStrategy : HandlersAdaptor := .naive ⟨"", ""⟩
  deriving DecidableEq

/-- `JailerConfig.chrootBaseDir()` (jailer.go lines 95–101); renamed to avoid
clashing with the field of the same Go name. -/
def JailerConfig.chrootBaseDirResolved (cfg : JailerConfig) : String :=
  if cfg.chrootBaseDir.length = 0 then defaultJailerPath else cfg.chrootBaseDir

/-- `JailerConfig.rootDir()` (jailer.go lines 103–105). -/
def JailerConfig.rootDir (cfg : JailerConfig) : String :=
  filepathJoin [cfg.chrootBaseDirResolved, "firecracker", cfg.id, rootfsFolderName]

/-- `Config`, restricted to the fields the jailer code reads and writes:
the API socket path, the kernel image path, the drive list and the embedded
jailer configuration. -/
structure Config where
  socketPath : String := ""
  kernelImagePath : String := ""
  drives : List Drive := []
  jailerCfg : JailerConfig := {}
  deriving DecidableEq

/-! ### Handler pipeline

Modelled from the spec: the handler-pipeline type (`Handlers`, `HandlerList`
with `Has`, `AppendAfter`, `Swappend`) and its name constants live in the
repository's handlers module, which is not under src/; only their callers in
jailer.go are.  Following spec §4.1 the pipeline is an ordered list of named
steps; steps are tracked here by name, and each step's action is embedded
separately as its own definition below. -/

/-- Modelled from the spec: the name of the machine-creation anchor step. -/
def CreateMachineHandlerName : String := "fcinit.CreateMachine"

/-- Modelled from the spec: the name under which the link-files step is
injected. -/
def LinkFilesToRootFSHandlerName : String := "fcinit.LinkFilesToRootFS"

/-- `ErrCreateMachineHandlerMissing` (jailer.go line 449). -/
def ErrCreateMachineHandlerMissing : GoError :=
  CreateMachineHandlerName ++ " is missing from FcInit's list"

/-- Modelled from the spec: `HandlerList.Has(name)` — membership by name. -/
def hasHandler (l : List String) (name : String) : Bool :=
  l.contains name

/-- Modelled from the spec: `HandlerList.AppendAfter(anchor, h)` inserts `h`
immediately after the anchor; with the anchor absent the list is returned
unmodified (the callers in src/ guard with `Has` first). -/
def appendAfter : List String → String → String → List String
  | [], _, _ => []
  | x :: xs, anchor, h =>
    if x = anchor then x :: h :: xs else x :: appendAfter xs anchor h

/-- Modelled from the spec: `HandlerList.Swappend(h)` replaces an existing
same-named step in place, appending to the end when absent. -/
def swappend : List String → String → List String
  | [], h => [h]
  | x :: xs, h => if x = h then h :: xs else x :: swappend xs h

/-- The caller-owned pipeline `Handlers` with its `FcInit` and `Finish`
sub-lists, tracked by step name. -/
structure Handlers where
  fcInit : List String := []
  finish : List String := []
  deriving DecidableEq

/-- `NaiveDevMapperStrategy.AdaptHandlers` (jailer.go lines 452–463); the
injected step carries the name constant, and its action is `linkFilesFn`
below, instantiated at `Join(s.Rootfs, "root")` and `Base(s.KernelImagePath)`.
Pointer mutation of `*Handlers` becomes returning the updated value. -/
def NaiveDevMapperStrategy.AdaptHandlers (s : NaiveDevMapperStrategy)
    (handlers : Handlers) : Option GoError × Handlers :=
  if ¬ hasHandler handlers.fcInit CreateMachineHandlerName then
    (some ErrCreateMachineHandlerMissing, handlers)
  else
    (none, { handlers with
      fcInit := appendAfter handlers.fcInit CreateMachineHandlerName
        LinkFilesToRootFSHandlerName })

/-- `BindMountDevMapperStrategy.AdaptHandlers` (jailer.go lines 482–520); the
injected init step is named `MountToRootFS` (action `bindMountHandlerFn`
below) and the finish step `finish.umountDrive` (action `umountDriveFn`). -/
def BindMountDevMapperStrategy.AdaptHandlers (s : BindMountDevMapperStrategy)
    (handlers : Handlers) : Option GoError × Handlers :=
  if ¬ hasHandler handlers.fcInit CreateMachineHandlerName then
    (some ErrCreateMachineHandlerMissing, handlers)
  else
    (none, { handlers with
      fcInit := appendAfter handlers.fcInit CreateMachineHandlerName "MountToRootFS",
      finish := swappend handlers.finish "finish.umountDrive" })

/-- Dynamic dispatch of the `HandlersAdaptor` interface. -/
def HandlersAdaptor.adapt : HandlersAdaptor → Handlers → Option GoError × Handlers
  | .naive s, h => s.AdaptHandlers h
  | .bindMount s, h => s.AdaptHandlers h

/-! ### Bind-mount teardown step (jailer.go lines 495–517) -/

/-- Oracle for `syscall.Unmount(path, MNT_FORCE)`. -/
structure UnmountWorld where
  unmountRes : String → Option GoError

/-- `go-multierror` aggregate: `none` is a nil `*multierror.Error`. -/
abbrev MultiError := Option (List GoError)

/-- `multierror.Append(errs, e)` returns a new aggregate holding the
accumulated errors plus `e`. -/
def multierrorAppend (errs : MultiError) (e : GoError) : MultiError :=
  some (errs.getD [] ++ [e])

/-- `(*multierror.Error).ErrorOrNil()`: nil receiver or empty list yield nil. -/
def errorOrNil : MultiError → Option GoError
  | none => none
  | some [] => none
  | some (e :: es) => some (String.intercalate "; " (e :: es))

/-- The drive loop of the `finish.umountDrive` step (jailer.go lines 506–513).
The source calls `multierror.Append(errs, err)` without assigning its result
(jailer.go line 511), which the `let _ :=` mirrors. -/
def umountDriveFnLoop (w : UnmountWorld) (rootDir : String) :
    List Drive → MultiError → List FsEvent × MultiError
  | [], errs => ([], errs)
  | d :: rest, errs =>
    let p := filepathJoin [rootDir, StringValue d.pathOnHost]
    let errs' :=
      match w.unmountRes p with
      | some e =>
        let _ := multierrorAppend errs e
        errs
      | none => errs
    (FsEvent.unmountPath p :: (umountDriveFnLoop w rootDir rest errs').1,
      (umountDriveFnLoop w rootDir rest errs').2)

/-- The `finish.umountDrive` step body (jailer.go lines 497–516).  The result
of `multierror.Append(errs, err)` at line 503 is likewise discarded by the
source. -/
def umountDriveFn (w : UnmountWorld) (cfg : Config) : List FsEvent × Option GoError :=
  let rootDir := cfg.jailerCfg.rootDir
  let kernelImagePath := filepathJoin [rootDir, cfg.kernelImagePath]
  let errs : MultiError := none
  let errs1 :=
    match w.unmountRes kernelImagePath with
    | some e =>
      let _ := multierrorAppend errs e
      errs
    | none => errs
  (FsEvent.unmountPath kernelImagePath :: (umountDriveFnLoop w rootDir cfg.drives errs1).1,
    errorOrNil (umountDriveFnLoop w rootDir cfg.drives errs1).2)

/-! ### jail (jailer.go lines 362–385) -/

/-- `jail(ctx, m, cfg)`: sets the socket path, builds the jailer command
(`os.Stdout`/`os.Stderr` are descriptors 1 and 2), then lets the strategy
adapt the pipeline.  Pointer mutation of `cfg` and `m` becomes returning the
updated configuration, pipeline and command; dereferencing an absent UID, GID
or NUMA node panics. -/
def jail (cfg : Config) (handlers : Handlers) :
    GoRes × Config × Handlers × Option CmdModel :=
  let chroot := cfg.jailerCfg.chrootBaseDirResolved
  let rootfs := filepathJoin [chroot, "firecracker", cfg.jailerCfg.id]
  let cfg1 := { cfg with socketPath := filepathJoin [rootfs, "api.socket"] }
  match cfg.jailerCfg.uid, cfg.jailerCfg.gid, cfg.jailerCfg.numaNode with
  | some u, some g, some n =>
    let cmd :=
      ((((((((((({} : JailerCommandBuilder).WithID cfg.jailerCfg.id).WithUID u).WithGID
        g).WithNumaNode n).WithExecFile cfg.jailerCfg.execFile).WithChrootBaseDir
        cfg.jailerCfg.chrootBaseDir).WithDaemonize cfg.jailerCfg.daemonize).WithSeccompLevel
        cfg.jailerCfg.seccompLevel).WithStdout (some 1)).WithStderr (some 2)).Build
    match cfg.jailerCfg.devMapperStrategy.adapt handlers with
    | (some e, handlers') => (.err e, cfg1, handlers', some cmd)
    | (none, handlers') => (.ok, cfg1, handlers', some cmd)
  | _, _, _ => (.panicked, cfg1, handlers, none)

/-- C2: for every pipeline whose init sub-list lacks the machine-creation
anchor step, `AdaptHandlers` of both `NaiveDevMapperStrategy` and
`BindMountDevMapperStrategy` returns the anchor-missing error and leaves the
pipeline (both sub-lists) completely unmodified. -/
theorem claim2_adapt_anchor_missing (s₁ : NaiveDevMapperStrategy)
    (s₂ : BindMountDevMapperStrategy) (handlers : Handlers)
    (h : hasHandler handlers.fcInit CreateMachineHandlerName = false) :
    s₁.AdaptHandlers handlers = (some ErrCreateMachineHandlerMissing, handlers)
    ∧ s₂.AdaptHandlers handlers = (some ErrCreateMachineHandlerMissing, handlers) := by
  constructor <;>
    simp [NaiveDevMapperStrategy.AdaptHandlers, BindMountDevMapperStrategy.AdaptHandlers, h]

/-- Witness for C2 at a concrete pipeline lacking the anchor. -/
theorem claim2_adapt_anchor_missing_witness :
    hasHandler (Handlers.mk ["fcinit.StartVMM", "fcinit.BootstrapLogging"] ["finish.other"]).fcInit
        CreateMachineHandlerName = false
    ∧ (NaiveDevMapperStrategy.mk "/srv/jailer/firecracker/test-id" "/img/vmlinux").AdaptHandlers
        (Handlers.mk ["fcinit.StartVMM", "fcinit.BootstrapLogging"] ["finish.other"])
        = (some ErrCreateMachineHandlerMissing,
            Handlers.mk ["fcinit.StartVMM", "fcinit.BootstrapLogging"] ["finish.other"])
    ∧ (BindMountDevMapperStrategy.mk "gid=100,uid=123").AdaptHandlers
        (Handlers.mk ["fcinit.StartVMM", "fcinit.BootstrapLogging"] ["finish.other"])
        = (some ErrCreateMachineHandlerMissing,
            Handlers.mk ["fcinit.StartVMM", "fcinit.BootstrapLogging"] ["finish.other"]) := by
  refine ⟨by decide, ?_⟩
  exact claim2_adapt_anchor_missing
    (NaiveDevMapperStrategy.mk "/srv/jailer/firecracker/test-id" "/img/vmlinux")
    (BindMountDevMapperStrategy.mk "gid=100,uid=123")
    (Handlers.mk ["fcinit.StartVMM", "fcinit.BootstrapLogging"] ["finish.other"])
    (by decide)

/-- The teardown drive loop threads the (never reassigned) aggregate through
unchanged. -/
theorem umountDriveFnLoop_snd (w : UnmountWorld) (rootDir : String)
    (ds : List Drive) (errs : MultiError) :
    (umountDriveFnLoop w rootDir ds errs).2 = errs := by
  induction ds generalizing errs with
  | nil => rfl
  | cons d rest ih =>
    simp only [umountDriveFnLoop]
    cases w.unmountRes (filepathJoin [rootDir, StringValue d.pathOnHost]) <;>
      simpa using ih _

/-- Concrete unmount oracle for C1: unmounting the jailed kernel image fails,
unmounting the jailed drive succeeds. -/
def claim1World : UnmountWorld :=
  ⟨fun p => if p = "/srv/jailer/firecracker/test-id/root/vmlinux"
    then some "device or resource busy" else none⟩

/-- Concrete configuration for C1, as it stands at teardown time (artifact
paths already rewritten to jail-relative basenames). -/
def claim1Config : Config :=
  { socketPath := "/srv/jailer/firecracker/test-id/api.socket",
    kernelImagePath := "vmlinux",
    drives := [{ pathOnHost := some "disk.img", isReadOnly := some false }],
    jailerCfg := { uid := some 123, gid := some 100, id := "test-id" } }

/-- C1 (code bug): the teardown step does attempt every unmount without
aborting early, but `multierror.Append(errs, err)`'s result is discarded at
jailer.go lines 503 and 511, so the aggregate stays nil and the step returns
success even when an unmount failed — it never returns the aggregate the
claim (and the aggregation code's own evident intent) describes.  Concretely:
the kernel unmount fails yet both unmounts are attempted and the step returns
`none`; in general the step returns `none` for every oracle and
configuration. -/
theorem claim1_teardown_error_swallowed :
    claim1World.unmountRes "/srv/jailer/firecracker/test-id/root/vmlinux"
        = some "device or resource busy"
    ∧ umountDriveFn claim1World claim1Config
        = ([FsEvent.unmountPath "/srv/jailer/firecracker/test-id/root/vmlinux",
            FsEvent.unmountPath "/srv/jailer/firecracker/test-id/root/disk.img"], none)
    ∧ ∀ (w : UnmountWorld) (cfg : Config), (umountDriveFn w cfg).2 = none := by
  refine ⟨by decide, by decide, ?_⟩
  intro w cfg
  simp only [umountDriveFn]
  cases w.unmountRes (filepathJoin [cfg.jailerCfg.rootDir, cfg.kernelImagePath]) <;>
    simp [umountDriveFnLoop_snd, errorOrNil]

/-- C10: `jail` unconditionally rewrites the configuration's socket path to
`<resolved chroot base>/firecracker/<id>/api.socket` — directly under the
jail directory, with no `root` component — for every pipeline, in particular
also when the strategy's `AdaptHandlers` subsequently fails, and also on the
panic path taken when a required numeric field is absent. -/
theorem claim10_jail_sets_socket_path (cfg : Config) (handlers : Handlers) :
    (jail cfg handlers).2.1.socketPath
      = filepathJoin [filepathJoin [cfg.jailerCfg.chrootBaseDirResolved, "firecracker",
          cfg.jailerCfg.id], "api.socket"] := by
  simp only [jail]
  cases hu : cfg.jailerCfg.uid with
  | none => simp
  | some u =>
    cases hg : cfg.jailerCfg.gid with
    | none => simp
    | some g =>
      cases hn : cfg.jailerCfg.numaNode with
      | none => simp
      | some n =>
        cases ha : cfg.jailerCfg.devMapperStrategy.adapt handlers with
        | mk e hs' => cases e <;> simp [ha]

/-! ### Link-files handler (jailer.go lines 387–430) -/

/-- Oracles for `os.Link(src, dst)` and `os.Chown(path, uid, gid)`. -/
structure LinkWorld where
  linkRes : String → String → Option GoError
  chownRes : String → Int → Int → Option GoError

/-- `linkFileToRootFS(cfg, dst, src)` (jailer.go lines 387–393): `os.Link`
first, then `os.Chown(dst, *cfg.UID, *cfg.GID)` — the dereference panics when
either pointer is nil. -/
def linkFileToRootFS (w : LinkWorld) (cfg : JailerConfig) (dst src : String) :
    List FsEvent × GoRes :=
  match w.linkRes src dst with
  | some e => ([.linkFile src dst], .err e)
  | none =>
    match cfg.uid, cfg.gid with
    | some u, some g =>
      match w.chownRes dst u g with
      | some e => ([.linkFile src dst, .chownFile dst u g], .err e)
      | none => ([.linkFile src dst, .chownFile dst u g], .ok)
    | _, _ => ([.linkFile src dst], .panicked)

/-- The drive loop of the link-files step (jailer.go lines 411–424): each
drive is linked under its basename and its `PathOnHost` rewritten on success;
the first failure returns immediately, leaving that drive and all later ones
untouched. -/
def linkDrivesLoop (w : LinkWorld) (jcfg : JailerConfig) (rootfs : String) :
    List Drive → List FsEvent × GoRes × List Drive
  | [] => ([], .ok, [])
  | d :: rest =>
    let hostPath := StringValue d.pathOnHost
    let driveFileName := filepathBase hostPath
    let res := linkFileToRootFS w jcfg (filepathJoin [rootfs, driveFileName]) hostPath
    match res.2 with
    | .err e => (res.1, .err e, d :: rest)
    | .panicked => (res.1, .panicked, d :: rest)
    | .ok =>
      (res.1 ++ (linkDrivesLoop w jcfg rootfs rest).1,
        (linkDrivesLoop w jcfg rootfs rest).2.1,
        { d with pathOnHost := some driveFileName } :: (linkDrivesLoop w jcfg rootfs rest).2.2)

/-- The body of `LinkFilesHandler(rootfs, kernelImageFileName)` (jailer.go
lines 397–430): link the kernel image, then every drive, and only after the
whole drive loop rewrite the configuration's kernel image path. -/
def linkFilesFn (w : LinkWorld) (rootfs kernelImageFileName : String) (cfg : Config) :
    List FsEvent × GoRes × Config :=
  let kres := linkFileToRootFS w cfg.jailerCfg
    (filepathJoin [rootfs, kernelImageFileName]) cfg.kernelImagePath
  match kres.2 with
  | .err e => (kres.1, .err e, cfg)
  | .panicked => (kres.1, .panicked, cfg)
  | .ok =>
    let dres := linkDrivesLoop w cfg.jailerCfg rootfs cfg.drives
    match dres.2.1 with
    | .ok => (kres.1 ++ dres.1, .ok,
        { cfg with drives := dres.2.2, kernelImagePath := kernelImageFileName })
    | .err e => (kres.1 ++ dres.1, .err e, { cfg with drives := dres.2.2 })
    | .panicked => (kres.1 ++ dres.1, .panicked, { cfg with drives := dres.2.2 })

/-- Drive loop, all links and ownership changes succeeding: every drive is
linked and chowned in configuration order and rewritten to its basename. -/
theorem linkDrivesLoop_ok (w : LinkWorld) (jcfg : JailerConfig) (rootfs : String)
    (u g : Int) (hu : jcfg.uid = some u) (hg : jcfg.gid = some g) (ds : List Drive)
    (hok : ∀ d ∈ ds,
      w.linkRes (StringValue d.pathOnHost)
        (filepathJoin [rootfs, filepathBase (StringValue d.pathOnHost)]) = none
      ∧ w.chownRes (filepathJoin [rootfs, filepathBase (StringValue d.pathOnHost)]) u g
        = none) :
    linkDrivesLoop w jcfg rootfs ds =
      ((ds.map (fun d =>
          [FsEvent.linkFile (StringValue d.pathOnHost)
            (filepathJoin [rootfs, filepathBase (StringValue d.pathOnHost)]),
           FsEvent.chownFile
            (filepathJoin [rootfs, filepathBase (StringValue d.pathOnHost)]) u g])).flatten,
        .ok,
        ds.map fun d => { d with pathOnHost := some (filepathBase (StringValue d.pathOnHost)) }) := by
  induction ds with
  | nil => rfl
  | cons d rest ih =>
    obtain ⟨h1, h2⟩ := hok d (List.mem_cons_self d rest)
    have hrest := ih fun x hx => hok x (List.mem_cons_of_mem _ hx)
    simp only [linkDrivesLoop, linkFileToRootFS, h1, hu, hg, h2]
    simp [hrest]

/-- Drive loop, first failure at the drive `d` after a successful prefix
`ds₁`: the loop stops at `d`, rewrites exactly the prefix, and leaves `d` and
everything after it untouched. -/
theorem linkDrivesLoop_fail (w : LinkWorld) (jcfg : JailerConfig) (rootfs : String)
    (u g : Int) (hu : jcfg.uid = some u) (hg : jcfg.gid = some g)
    (ds₁ : List Drive) (d : Drive) (ds₂ : List Drive) (e : GoError)
    (hok : ∀ x ∈ ds₁,
      w.linkRes (StringValue x.pathOnHost)
        (filepathJoin [rootfs, filepathBase (StringValue x.pathOnHost)]) = none
      ∧ w.chownRes (filepathJoin [rootfs, filepathBase (StringValue x.pathOnHost)]) u g
        = none)
    (hfail : w.linkRes (StringValue d.pathOnHost)
        (filepathJoin [rootfs, filepathBase (StringValue d.pathOnHost)]) = some e) :
    linkDrivesLoop w jcfg rootfs (ds₁ ++ d :: ds₂) =
      ((ds₁.map (fun x =>
          [FsEvent.linkFile (StringValue x.pathOnHost)
            (filepathJoin [rootfs, filepathBase (StringValue x.pathOnHost)]),
           FsEvent.chownFile
            (filepathJoin [rootfs, filepathBase (StringValue x.pathOnHost)]) u g])).flatten
        ++ [FsEvent.linkFile (StringValue d.pathOnHost)
            (filepathJoin [rootfs, filepathBase (StringValue d.pathOnHost)])],
        .err e,
        (ds₁.map fun x => { x with pathOnHost := some (filepathBase (StringValue x.pathOnHost)) })
          ++ d :: ds₂) := by
  induction ds₁ with
  | nil => simp only [List.nil_append, linkDrivesLoop, linkFileToRootFS, hfail]; simp
  | cons x rest ih =>
    obtain ⟨h1, h2⟩ := hok x (List.mem_cons_self x rest)
    have hrest := ih fun y hy => hok y (List.mem_cons_of_mem _ hy)
    simp only [List.cons_append, linkDrivesLoop, linkFileToRootFS, h1, hu, hg, h2]
    simp [hrest]

/-- Link-files step with the kernel link and the prefix `ds₁` of the drives
succeeding and the link of drive `d` failing: the step returns that error,
attempts nothing past `d`, keeps the prefix's rewrites and leaves the kernel
image path at its original value. -/
theorem linkFilesFn_drive_fail (w : LinkWorld) (rootfs kname : String) (cfg : Config)
    (u g : Int) (e : GoError) (ds₁ : List Drive) (d : Drive) (ds₂ : List Drive)
    (hu : cfg.jailerCfg.uid = some u) (hg : cfg.jailerCfg.gid = some g)
    (hds : cfg.drives = ds₁ ++ d :: ds₂)
    (hk1 : w.linkRes cfg.kernelImagePath (filepathJoin [rootfs, kname]) = none)
    (hk2 : w.chownRes (filepathJoin [rootfs, kname]) u g = none)
    (hok : ∀ x ∈ ds₁,
      w.linkRes (StringValue x.pathOnHost)
        (filepathJoin [rootfs, filepathBase (StringValue x.pathOnHost)]) = none
      ∧ w.chownRes (filepathJoin [rootfs, filepathBase (StringValue x.pathOnHost)]) u g
        = none)
    (hfail : w.linkRes (StringValue d.pathOnHost)
        (filepathJoin [rootfs, filepathBase (StringValue d.pathOnHost)]) = some e) :
    linkFilesFn w rootfs kname cfg =
      ([FsEvent.linkFile cfg.kernelImagePath (filepathJoin [rootfs, kname]),
        FsEvent.chownFile (filepathJoin [rootfs, kname]) u g]
        ++ ((ds₁.map (fun x =>
            [FsEvent.linkFile (StringValue x.pathOnHost)
              (filepathJoin [rootfs, filepathBase (StringValue x.pathOnHost)]),
             FsEvent.chownFile
              (filepathJoin [rootfs, filepathBase (StringValue x.pathOnHost)]) u g])).flatten
          ++ [FsEvent.linkFile (StringValue d.pathOnHost)
              (filepathJoin [rootfs, filepathBase (StringValue d.pathOnHost)])]),
        .err e,
        { cfg with drives :=
            (ds₁.map fun x =>
              { x with pathOnHost := some (filepathBase (StringValue x.pathOnHost)) })
            ++ d :: ds₂ }) := by
  have hloop := linkDrivesLoop_fail w cfg.jailerCfg rootfs u g hu hg ds₁ d ds₂ e hok hfail
  simp only [linkFilesFn, linkFileToRootFS, hk1, hu, hg, hk2, hds]
  simp [hloop]

/-- C4: with UID and GID present and every link and ownership change
succeeding, the link-files step hard-links the kernel image and each drive
from its host path into the jail root, chowns each new link to the configured
UID/GID, and rewrites the configuration's kernel image path and each drive's
host path to the basenames of their original paths. -/
theorem claim4_link_strategy_success (w : LinkWorld) (rootfs : String) (cfg : Config)
    (u g : Int) (kname : String)
    (hu : cfg.jailerCfg.uid = some u) (hg : cfg.jailerCfg.gid = some g)
    (hk : kname = filepathBase cfg.kernelImagePath)
    (hlink : ∀ s d, w.linkRes s d = none)
    (hchown : ∀ p a b, w.chownRes p a b = none) :
    linkFilesFn w rootfs kname cfg =
      ([FsEvent.linkFile cfg.kernelImagePath
          (filepathJoin [rootfs, filepathBase cfg.kernelImagePath]),
        FsEvent.chownFile (filepathJoin [rootfs, filepathBase cfg.kernelImagePath]) u g]
        ++ (cfg.drives.map (fun d =>
            [FsEvent.linkFile (StringValue d.pathOnHost)
              (filepathJoin [rootfs, filepathBase (StringValue d.pathOnHost)]),
             FsEvent.chownFile
              (filepathJoin [rootfs, filepathBase (StringValue d.pathOnHost)]) u g])).flatten,
        .ok,
        { cfg with
            kernelImagePath := filepathBase cfg.kernelImagePath,
            drives := cfg.drives.map fun d =>
              { d with pathOnHost := some (filepathBase (StringValue d.pathOnHost)) } }) := by
  subst hk
  have hloop := linkDrivesLoop_ok w cfg.jailerCfg rootfs u g hu hg cfg.drives
    (fun d _ => ⟨hlink _ _, hchown _ _ _⟩)
  simp only [linkFilesFn, linkFileToRootFS, hlink, hu, hg, hchown]
  simp [hloop]

/-- The all-success oracle for the link-files witnesses. -/
def okLinkWorld : LinkWorld := ⟨fun _ _ => none, fun _ _ _ => none⟩

/-- Concrete configuration for the link-files witnesses: one kernel image and
one block device, target UID 123 and GID 100. -/
def linkConfig : Config :=
  { kernelImagePath := "/img/vmlinux",
    drives := [{ pathOnHost := some "/data/disk.img", isReadOnly := some false }],
    jailerCfg := { uid := some 123, gid := some 100, id := "test-id" } }

/-- Witness for C4 at `linkConfig` under the jail root
`/srv/jailer/firecracker/test-id/root`. -/
theorem claim4_link_strategy_success_witness :
    linkConfig.jailerCfg.uid = some 123
    ∧ linkConfig.jailerCfg.gid = some 100
    ∧ ("vmlinux" : String) = filepathBase linkConfig.kernelImagePath
    ∧ linkFilesFn okLinkWorld "/srv/jailer/firecracker/test-id/root" "vmlinux" linkConfig
        = ([FsEvent.linkFile "/img/vmlinux" "/srv/jailer/firecracker/test-id/root/vmlinux",
            FsEvent.chownFile "/srv/jailer/firecracker/test-id/root/vmlinux" 123 100,
            FsEvent.linkFile "/data/disk.img" "/srv/jailer/firecracker/test-id/root/disk.img",
            FsEvent.chownFile "/srv/jailer/firecracker/test-id/root/disk.img" 123 100],
          .ok,
          { kernelImagePath := "vmlinux",
            drives := [{ pathOnHost := some "disk.img", isReadOnly := some false }],
            jailerCfg := { uid := some 123, gid := some 100, id := "test-id" } }) := by
  have h := claim4_link_strategy_success okLinkWorld "/srv/jailer/firecracker/test-id/root"
    linkConfig 123 100 "vmlinux" rfl rfl (by decide) (fun _ _ => rfl) (fun _ _ _ => rfl)
  refine ⟨rfl, rfl, by decide, ?_⟩
  rw [h]
  decide

/-- Drive loop, stated by the outcome of the per-artifact operation
`linkFileToRootFS` (which errs whenever its `os.Link` or its `os.Chown`
fails): with the prefix `ds₁` succeeding and the artifact `d` failing either
way, the loop stops at `d`, its trace is the prefix's events plus `d`'s
attempt, exactly the prefix is rewritten, and `d` and everything after it are
untouched. -/
theorem linkDrivesLoop_res_fail (w : LinkWorld) (jcfg : JailerConfig) (rootfs : String)
    (ds₁ : List Drive) (d : Drive) (ds₂ : List Drive) (e : GoError)
    (hok : ∀ x ∈ ds₁, (linkFileToRootFS w jcfg
        (filepathJoin [rootfs, filepathBase (StringValue x.pathOnHost)])
        (StringValue x.pathOnHost)).2 = .ok)
    (hfail : (linkFileToRootFS w jcfg
        (filepathJoin [rootfs, filepathBase (StringValue d.pathOnHost)])
        (StringValue d.pathOnHost)).2 = .err e) :
    linkDrivesLoop w jcfg rootfs (ds₁ ++ d :: ds₂) =
      ((ds₁.map fun x => (linkFileToRootFS w jcfg
          (filepathJoin [rootfs, filepathBase (StringValue x.pathOnHost)])
          (StringValue x.pathOnHost)).1).flatten
        ++ (linkFileToRootFS w jcfg
          (filepathJoin [rootfs, filepathBase (StringValue d.pathOnHost)])
          (StringValue d.pathOnHost)).1,
        .err e,
        (ds₁.map fun x => { x with pathOnHost := some (filepathBase (StringValue x.pathOnHost)) })
          ++ d :: ds₂) := by
  induction ds₁ with
  | nil =>
    simp only [List.nil_append, linkDrivesLoop, hfail]
    simp
  | cons x rest ih =>
    have h1 := hok x (List.mem_cons_self x rest)
    have hrest := ih fun y hy => hok y (List.mem_cons_of_mem _ hy)
    simp only [List.cons_append, linkDrivesLoop, h1]
    simp [hrest]

/-- C5: the link-files step fails fast on any link or ownership-change
failure.  First conjunct: if the kernel image's `linkFileToRootFS` fails —
its `os.Link` or its `os.Chown` — the step returns that error at once, its
trace is only that attempt (no drive is touched) and the configuration is
unmodified.  Second conjunct: if the kernel succeeds and the first failing
drive is `d` (again, link or chown), the step returns `d`'s error, attempts
no artifact after `d`, and the drives processed before the failure keep
their rewrites (no rollback) while `d` and the rest are untouched. -/
theorem claim5_link_fail_fast (w : LinkWorld) (rootfs kname : String) (cfg : Config)
    (e : GoError) :
    ((linkFileToRootFS w cfg.jailerCfg (filepathJoin [rootfs, kname])
        cfg.kernelImagePath).2 = .err e →
      linkFilesFn w rootfs kname cfg
        = ((linkFileToRootFS w cfg.jailerCfg (filepathJoin [rootfs, kname])
            cfg.kernelImagePath).1, .err e, cfg))
    ∧ (∀ (ds₁ : List Drive) (d : Drive) (ds₂ : List Drive),
        cfg.drives = ds₁ ++ d :: ds₂ →
        (linkFileToRootFS w cfg.jailerCfg (filepathJoin [rootfs, kname])
          cfg.kernelImagePath).2 = .ok →
        (∀ x ∈ ds₁, (linkFileToRootFS w cfg.jailerCfg
            (filepathJoin [rootfs, filepathBase (StringValue x.pathOnHost)])
            (StringValue x.pathOnHost)).2 = .ok) →
        (linkFileToRootFS w cfg.jailerCfg
            (filepathJoin [rootfs, filepathBase (StringValue d.pathOnHost)])
            (StringValue d.pathOnHost)).2 = .err e →
        linkFilesFn w rootfs kname cfg
          = ((linkFileToRootFS w cfg.jailerCfg (filepathJoin [rootfs, kname])
              cfg.kernelImagePath).1
              ++ ((ds₁.map fun x => (linkFileToRootFS w cfg.jailerCfg
                  (filepathJoin [rootfs, filepathBase (StringValue x.pathOnHost)])
                  (StringValue x.pathOnHost)).1).flatten
                ++ (linkFileToRootFS w cfg.jailerCfg
                  (filepathJoin [rootfs, filepathBase (StringValue d.pathOnHost)])
                  (StringValue d.pathOnHost)).1),
              .err e,
              { cfg with drives :=
                  (ds₁.map fun x =>
                    { x with pathOnHost := some (filepathBase (StringValue x.pathOnHost)) })
                  ++ d :: ds₂ })) := by
  constructor
  · intro hfail
    simp only [linkFilesFn, hfail]
  · intro ds₁ d ds₂ hds hk hok hfail
    have hloop := linkDrivesLoop_res_fail w cfg.jailerCfg rootfs ds₁ d ds₂ e hok hfail
    simp only [linkFilesFn, hk, hds, hloop]

/-- Oracle where linking the kernel image fails with a cross-device error
and everything else succeeds. -/
def kernelFailWorld : LinkWorld :=
  ⟨fun src _ => if src = "/img/vmlinux" then some "invalid cross-device link" else none,
    fun _ _ _ => none⟩

/-- Oracle where every link succeeds but changing ownership of the jailed
kernel image fails. -/
def kernelChownFailWorld : LinkWorld :=
  ⟨fun _ _ => none,
    fun p _ _ => if p = "/srv/jailer/firecracker/test-id/root/vmlinux"
      then some "operation not permitted" else none⟩

/-- Oracle where linking the block device fails and everything else
succeeds (also used by the C9 witness). -/
def driveFailWorld : LinkWorld :=
  ⟨fun src _ => if src = "/data/disk.img" then some "operation not permitted" else none,
    fun _ _ _ => none⟩

/-- Oracle where every link succeeds but changing ownership of the jailed
block device fails. -/
def driveChownFailWorld : LinkWorld :=
  ⟨fun _ _ => none,
    fun p _ _ => if p = "/srv/jailer/firecracker/test-id/root/disk.img"
      then some "operation not permitted" else none⟩

/-- Witness for C5 exercising all four failure modes at `linkConfig`:
a failing kernel link stops before any drive; a failing kernel chown stops
after the kernel link and chown attempts, before any drive; a failing drive
link stops at that link; a failing drive chown stops right after that chown
attempt, with the configuration unmodified in each case shown. -/
theorem claim5_link_fail_fast_witness :
    (linkFileToRootFS kernelFailWorld linkConfig.jailerCfg
        (filepathJoin ["/srv/jailer/firecracker/test-id/root", "vmlinux"])
        linkConfig.kernelImagePath).2 = .err "invalid cross-device link"
    ∧ linkFilesFn kernelFailWorld "/srv/jailer/firecracker/test-id/root" "vmlinux" linkConfig
        = ([FsEvent.linkFile "/img/vmlinux" "/srv/jailer/firecracker/test-id/root/vmlinux"],
            .err "invalid cross-device link", linkConfig)
    ∧ linkFilesFn kernelChownFailWorld "/srv/jailer/firecracker/test-id/root" "vmlinux"
        linkConfig
        = ([FsEvent.linkFile "/img/vmlinux" "/srv/jailer/firecracker/test-id/root/vmlinux",
            FsEvent.chownFile "/srv/jailer/firecracker/test-id/root/vmlinux" 123 100],
            .err "operation not permitted", linkConfig)
    ∧ (linkFilesFn driveFailWorld "/srv/jailer/firecracker/test-id/root" "vmlinux"
        linkConfig).1
        = [FsEvent.linkFile "/img/vmlinux" "/srv/jailer/firecracker/test-id/root/vmlinux",
           FsEvent.chownFile "/srv/jailer/firecracker/test-id/root/vmlinux" 123 100,
           FsEvent.linkFile "/data/disk.img" "/srv/jailer/firecracker/test-id/root/disk.img"]
    ∧ linkFilesFn driveChownFailWorld "/srv/jailer/firecracker/test-id/root" "vmlinux"
        linkConfig
        = ([FsEvent.linkFile "/img/vmlinux" "/srv/jailer/firecracker/test-id/root/vmlinux",
            FsEvent.chownFile "/srv/jailer/firecracker/test-id/root/vmlinux" 123 100,
            FsEvent.linkFile "/data/disk.img" "/srv/jailer/firecracker/test-id/root/disk.img",
            FsEvent.chownFile "/srv/jailer/firecracker/test-id/root/disk.img" 123 100],
            .err "operation not permitted", linkConfig) := by
  have h := (claim5_link_fail_fast kernelFailWorld "/srv/jailer/firecracker/test-id/root"
    "vmlinux" linkConfig "invalid cross-device link").1 (by decide)
  have hkc := (claim5_link_fail_fast kernelChownFailWorld
    "/srv/jailer/firecracker/test-id/root" "vmlinux" linkConfig
    "operation not permitted").1 (by decide)
  have h2 := (claim5_link_fail_fast driveFailWorld "/srv/jailer/firecracker/test-id/root"
    "vmlinux" linkConfig "operation not permitted").2 []
    ({ pathOnHost := some "/data/disk.img", isReadOnly := some false } : Drive) []
    (by decide) (by decide) (by intro x hx; cases hx) (by decide)
  have hdc := (claim5_link_fail_fast driveChownFailWorld
    "/srv/jailer/firecracker/test-id/root" "vmlinux" linkConfig
    "operation not permitted").2 []
    ({ pathOnHost := some "/data/disk.img", isReadOnly := some false } : Drive) []
    (by decide) (by decide) (by intro x hx; cases hx) (by decide)
  refine ⟨by decide, ?_, ?_, ?_, ?_⟩
  · rw [h]
    decide
  · rw [hkc]
    decide
  · rw [h2]
    decide
  · rw [hdc]
    decide

/-- C9: when the kernel image links fine but linking some drive fails, the
kernel image path still holds its original host value (it is rewritten only
after the whole drive loop) while the drives processed before the failure
already hold their rewritten basenames and the rest are untouched. -/
theorem claim9_kernel_rewritten_last (w : LinkWorld) (rootfs kname : String)
    (cfg : Config) (u g : Int) (e : GoError) (ds₁ : List Drive) (d : Drive)
    (ds₂ : List Drive)
    (hu : cfg.jailerCfg.uid = some u) (hg : cfg.jailerCfg.gid = some g)
    (hds : cfg.drives = ds₁ ++ d :: ds₂)
    (hk1 : w.linkRes cfg.kernelImagePath (filepathJoin [rootfs, kname]) = none)
    (hk2 : w.chownRes (filepathJoin [rootfs, kname]) u g = none)
    (hok : ∀ x ∈ ds₁,
      w.linkRes (StringValue x.pathOnHost)
        (filepathJoin [rootfs, filepathBase (StringValue x.pathOnHost)]) = none
      ∧ w.chownRes (filepathJoin [rootfs, filepathBase (StringValue x.pathOnHost)]) u g
        = none)
    (hfail : w.linkRes (StringValue d.pathOnHost)
        (filepathJoin [rootfs, filepathBase (StringValue d.pathOnHost)]) = some e) :
    (linkFilesFn w rootfs kname cfg).2.1 = .err e
    ∧ (linkFilesFn w rootfs kname cfg).2.2.kernelImagePath = cfg.kernelImagePath
    ∧ (linkFilesFn w rootfs kname cfg).2.2.drives
        = (ds₁.map fun x =>
            { x with pathOnHost := some (filepathBase (StringValue x.pathOnHost)) })
          ++ d :: ds₂ := by
  have h := linkFilesFn_drive_fail w rootfs kname cfg u g e ds₁ d ds₂ hu hg hds hk1 hk2 hok hfail
  rw [h]
  exact ⟨rfl, rfl, rfl⟩

/-- Witness for C9 at `linkConfig`: the single drive's link fails, so the
step errs, the kernel image path keeps its host value `/img/vmlinux`, and the
drive list is unchanged (the failing drive is not rewritten). -/
theorem claim9_kernel_rewritten_last_witness :
    linkConfig.drives
      = [] ++ ({ pathOnHost := some "/data/disk.img", isReadOnly := some false } : Drive) :: []
    ∧ driveFailWorld.linkRes "/data/disk.img"
        (filepathJoin ["/srv/jailer/firecracker/test-id/root", "disk.img"])
        = some "operation not permitted"
    ∧ (linkFilesFn driveFailWorld "/srv/jailer/firecracker/test-id/root" "vmlinux"
        linkConfig).2.1 = .err "operation not permitted"
    ∧ (linkFilesFn driveFailWorld "/srv/jailer/firecracker/test-id/root" "vmlinux"
        linkConfig).2.2.kernelImagePath = linkConfig.kernelImagePath := by
  have h := claim9_kernel_rewritten_last driveFailWorld
    "/srv/jailer/firecracker/test-id/root" "vmlinux" linkConfig 123 100
    "operation not permitted" []
    ({ pathOnHost := some "/data/disk.img", isReadOnly := some false } : Drive) []
    rfl rfl (by decide) (by decide) (by decide) (by intro x hx; cases hx) (by decide)
  exact ⟨by decide, by decide, h.1, h.2.1⟩

/-! ### Bind-mount provisioning step (jailer.go lines 523–620) -/

/-- Oracles for the active `bindMount` path: the `os.Stat` existence probe
and the two `nsenter` child commands (`sudo touch target` and
`sudo mount --bind src target`). -/
structure ExecWorld where
  statExists : String → Bool
  touchRes : Int → String → Option GoError
  bindRes : Int → String → String → Option GoError

/-- `bindMount(src, target, pid, uid, gid)` (jailer.go lines 587–620):
checks that `src` exists, creates the placeholder via `nsenter … touch`,
then bind-mounts via `nsenter -m … mount --bind`.  The `uid` and `gid`
parameters are received but never used, exactly as in the source. -/
def bindMount (w : ExecWorld) (src target : String) (pid uid gid : Int) :
    List FsEvent × Option GoError :=
  if ¬ w.statExists src then
    ([FsEvent.statSrc src], some (src ++ " could not be found"))
  else
    match w.touchRes pid target with
    | some e => ([.statSrc src, .execTouch pid target], some e)
    | none =>
      match w.bindRes pid src target with
      | some e =>
        ([.statSrc src, .execTouch pid target, .execBindMount pid src target], some e)
      | none =>
        ([.statSrc src, .execTouch pid target, .execBindMount pid src target], none)

/-- The drive loop of the `MountToRootFS` step (jailer.go lines 562–580):
each drive is bind-mounted under its basename and rewritten on success; the
first failure returns a wrapped error at once. -/
def bindDrivesLoop (w : ExecWorld) (pid : Int) (rootDir : String) (uid gid : Int) :
    List Drive → List FsEvent × GoRes × List Drive
  | [] => ([], .ok, [])
  | d :: rest =>
    let hostPath := StringValue d.pathOnHost
    let driveFileName := filepathBase hostPath
    let mountDriveFilePath := filepathJoin [rootDir, driveFileName]
    let res := bindMount w hostPath mountDriveFilePath pid uid gid
    match res.2 with
    | some e =>
      (res.1, .err ("failed to mount drive \"" ++ mountDriveFilePath ++ "\": " ++ e),
        d :: rest)
    | none =>
      (res.1 ++ (bindDrivesLoop w pid rootDir uid gid rest).1,
        (bindDrivesLoop w pid rootDir uid gid rest).2.1,
        { d with pathOnHost := some driveFileName }
          :: (bindDrivesLoop w pid rootDir uid gid rest).2.2)

/-- `BindMountDevMapperStrategy.handler` (jailer.go lines 523–583), the body
of the injected `MountToRootFS` step.  The mounter-based block at lines
530–553 is commented out in the source; the active path calls `bindMount`.
`*UID`/`*GID` are dereferenced up front (panicking when nil), the kernel
image path is rewritten right after its mount, then the drive loop runs. -/
def bindMountHandlerFn (w : ExecWorld) (pid : Int) (cfg : Config) :
    List FsEvent × GoRes × Config :=
  let rootDir := cfg.jailerCfg.rootDir
  let kernelImageName := filepathBase cfg.kernelImagePath
  let kernelImagePath := filepathJoin [rootDir, kernelImageName]
  match cfg.jailerCfg.uid, cfg.jailerCfg.gid with
  | some uid, some gid =>
    let kres := bindMount w cfg.kernelImagePath kernelImagePath pid uid gid
    match kres.2 with
    | some e => (kres.1, .err ("failed to mount kernel image: " ++ e), cfg)
    | none =>
      let dres := bindDrivesLoop w pid rootDir uid gid cfg.drives
      (kres.1 ++ dres.1, dres.2.1,
        { cfg with kernelImagePath := kernelImageName, drives := dres.2.2 })
  | _, _ => ([], .panicked, cfg)

/-- Bind-mount drive loop with every operation succeeding: per drive an
existence probe, an `nsenter` touch and an `nsenter` bind mount, in
configuration order, with basename rewrites — and nothing else. -/
theorem bindDrivesLoop_ok (w : ExecWorld) (pid : Int) (rootDir : String) (uid gid : Int)
    (ds : List Drive)
    (hstat : ∀ s, w.statExists s = true)
    (htouch : ∀ p t, w.touchRes p t = none)
    (hbind : ∀ p s t, w.bindRes p s t = none) :
    bindDrivesLoop w pid rootDir uid gid ds =
      ((ds.map (fun d =>
          [FsEvent.statSrc (StringValue d.pathOnHost),
           FsEvent.execTouch pid
            (filepathJoin [rootDir, filepathBase (StringValue d.pathOnHost)]),
           FsEvent.execBindMount pid (StringValue d.pathOnHost)
            (filepathJoin [rootDir, filepathBase (StringValue d.pathOnHost)])])).flatten,
        .ok,
        ds.map fun d => { d with pathOnHost := some (filepathBase (StringValue d.pathOnHost)) }) := by
  induction ds with
  | nil => rfl
  | cons d rest ih =>
    simp only [bindDrivesLoop, bindMount, hstat, htouch, hbind]
    simp [ih]

/-- The all-success exec oracle for the bind-mount theorems. -/
def okExecWorld : ExecWorld := ⟨fun _ => true, fun _ _ => none, fun _ _ _ => none⟩

/-- Concrete configuration with a read-only block device. -/
def roDriveConfig : Config :=
  { kernelImagePath := "/img/vmlinux",
    drives := [{ pathOnHost := some "/data/disk.img", isReadOnly := some true }],
    jailerCfg := { uid := some 123, gid := some 100, id := "test-id" } }

/-- C6 counterexample: at a configuration whose single block device has its
read-only flag set, the provisioning step succeeds but performs no read-only
remount whatsoever — its full effect trace is the existence probe, the
`nsenter` touch and the `nsenter` bind mount for the kernel image and the
drive, nothing else — refuting the claim that read-only drives are
additionally remounted read-only. -/
theorem claim6_counterexample :
    roDriveConfig.drives
      = [{ pathOnHost := some "/data/disk.img", isReadOnly := some true }]
    ∧ (bindMountHandlerFn okExecWorld 42 roDriveConfig).2.1 = .ok
    ∧ (bindMountHandlerFn okExecWorld 42 roDriveConfig).1
        = [FsEvent.statSrc "/img/vmlinux",
           FsEvent.execTouch 42 "/srv/jailer/firecracker/test-id/root/vmlinux",
           FsEvent.execBindMount 42 "/img/vmlinux"
             "/srv/jailer/firecracker/test-id/root/vmlinux",
           FsEvent.statSrc "/data/disk.img",
           FsEvent.execTouch 42 "/srv/jailer/firecracker/test-id/root/disk.img",
           FsEvent.execBindMount 42 "/data/disk.img"
             "/srv/jailer/firecracker/test-id/root/disk.img"]
    ∧ FsEvent.remountReadOnly "/data/disk.img"
        "/srv/jailer/firecracker/test-id/root/disk.img"
        ∉ (bindMountHandlerFn okExecWorld 42 roDriveConfig).1 := by
  exact ⟨rfl, by decide, by decide, by decide⟩

/-- C6 (amended): with UID and GID present and every underlying operation
succeeding, the provisioning step checks each artifact's host path exists,
creates an empty placeholder at the jail-relative target via `nsenter touch`
inside the target process, and bind-mounts the host path onto it via
`nsenter mount --bind`, rewriting the in-memory paths to basenames — but it
never consults the read-only flag and performs no read-only remount for any
drive (the read-only remount logic lives only in the unused
`mounter.Mount`). -/
theorem claim6_bind_mount_no_ro_remount (w : ExecWorld) (pid : Int) (cfg : Config)
    (u g : Int)
    (hu : cfg.jailerCfg.uid = some u) (hg : cfg.jailerCfg.gid = some g)
    (hstat : ∀ s, w.statExists s = true)
    (htouch : ∀ p t, w.touchRes p t = none)
    (hbind : ∀ p s t, w.bindRes p s t = none) :
    bindMountHandlerFn w pid cfg =
      ([FsEvent.statSrc cfg.kernelImagePath,
        FsEvent.execTouch pid
          (filepathJoin [cfg.jailerCfg.rootDir, filepathBase cfg.kernelImagePath]),
        FsEvent.execBindMount pid cfg.kernelImagePath
          (filepathJoin [cfg.jailerCfg.rootDir, filepathBase cfg.kernelImagePath])]
        ++ (cfg.drives.map (fun d =>
            [FsEvent.statSrc (StringValue d.pathOnHost),
             FsEvent.execTouch pid
              (filepathJoin [cfg.jailerCfg.rootDir, filepathBase (StringValue d.pathOnHost)]),
             FsEvent.execBindMount pid (StringValue d.pathOnHost)
              (filepathJoin [cfg.jailerCfg.rootDir,
                filepathBase (StringValue d.pathOnHost)])])).flatten,
        .ok,
        { cfg with
            kernelImagePath := filepathBase cfg.kernelImagePath,
            drives := cfg.drives.map fun d =>
              { d with pathOnHost := some (filepathBase (StringValue d.pathOnHost)) } })
    ∧ ∀ s t, FsEvent.remountReadOnly s t ∉ (bindMountHandlerFn w pid cfg).1 := by
  have hloop := bindDrivesLoop_ok w pid cfg.jailerCfg.rootDir u g cfg.drives hstat htouch hbind
  have h1 : (bindMountHandlerFn w pid cfg).1
      = [FsEvent.statSrc cfg.kernelImagePath,
          FsEvent.execTouch pid
            (filepathJoin [cfg.jailerCfg.rootDir, filepathBase cfg.kernelImagePath]),
          FsEvent.execBindMount pid cfg.kernelImagePath
            (filepathJoin [cfg.jailerCfg.rootDir, filepathBase cfg.kernelImagePath])]
        ++ (cfg.drives.map (fun d =>
            [FsEvent.statSrc (StringValue d.pathOnHost),
             FsEvent.execTouch pid
              (filepathJoin [cfg.jailerCfg.rootDir, filepathBase (StringValue d.pathOnHost)]),
             FsEvent.execBindMount pid (StringValue d.pathOnHost)
              (filepathJoin [cfg.jailerCfg.rootDir,
                filepathBase (StringValue d.pathOnHost)])])).flatten := by
    simp only [bindMountHandlerFn, bindMount, hstat, htouch, hbind, hu, hg]
    simp [hloop]
  refine ⟨?_, ?_⟩
  · simp only [bindMountHandlerFn, bindMount, hstat, htouch, hbind, hu, hg]
    simp [hloop]
  intro s t hmem
  rw [h1] at hmem
  simp at hmem

/-- Witness for the amended C6 at `roDriveConfig`: the read-only drive is
provisioned via touch and bind mount only, and no remount event occurs. -/
theorem claim6_bind_mount_no_ro_remount_witness :
    roDriveConfig.jailerCfg.uid = some 123
    ∧ roDriveConfig.jailerCfg.gid = some 100
    ∧ (bindMountHandlerFn okExecWorld 42 roDriveConfig).2.2.kernelImagePath = "vmlinux"
    ∧ FsEvent.remountReadOnly "/data/disk.img"
        "/srv/jailer/firecracker/test-id/root/disk.img"
        ∉ (bindMountHandlerFn okExecWorld 42 roDriveConfig).1 := by
  have h := claim6_bind_mount_no_ro_remount okExecWorld 42 roDriveConfig 123 100
    rfl rfl (fun _ => rfl) (fun _ _ => rfl) (fun _ _ _ => rfl)
  refine ⟨rfl, rfl, ?_, h.2 _ _⟩
  rw [h.1]
  decide

/-! ### Namespace-entering mounter (mount.go)

The calling OS thread's observable state is its pin count
(`runtime.LockOSThread` / `UnlockOSThread`) and the identity of the mount
namespace it is associated with; `unix.Setns` rebinds the latter. -/

/-- `mntNSType` (mount.go line 14). -/
def mntNSType : String := "mnt"

/-- `mounter` (mount.go lines 17–21). -/
structure Mounter where
  UID : Int
  GID : Int
  NSType : String
  deriving DecidableEq

/-- The calling OS thread's state: pin count and current mount-namespace
identity. -/
structure ThreadState where
  lockCount : Nat
  ns : Int
  deriving DecidableEq

/-- Oracles for the mounter's syscalls: the mount-namespace identity of a
pid, and the results of `unix.Open`, `unix.Setns` (keyed by the opened
namespace path), `os.Create`, the bind `syscall.Mount`, `os.Chown` and the
read-only remount `syscall.Mount`. -/
structure SysWorld where
  mntNSOf : Int → Int
  openRes : String → Option GoError
  setnsRes : String → Option GoError
  createRes : String → Option GoError
  mountRes : String → String → Option GoError
  chownRes : String → Int → Int → Option GoError
  remountRes : String → String → Option GoError

/-- `mounter.Mount(src, target, readOnly)` (mount.go lines 31–60):
`runtime.LockOSThread` first (raising the pin count on every path), then
create the target, bind-mount, chown to the mounter's UID/GID, and — only if
`readOnly` — remount read-only.  The thread's namespace is never changed. -/
def mounterMount (w : SysWorld) (m : Mounter) (src target : String) (readOnly : Bool)
    (st : ThreadState) : List FsEvent × Option GoError × ThreadState :=
  let st1 := { st with lockCount := st.lockCount + 1 }
  match w.createRes target with
  | some e => ([.lockThread, .createFile target],
      some ("Failed to create \"" ++ target ++ "\": " ++ e), st1)
  | none =>
    match w.mountRes src target with
    | some e => ([.lockThread, .createFile target, .mountBindSys src target],
        some ("Failed to mount \"" ++ target ++ "\": " ++ e), st1)
    | none =>
      match w.chownRes target m.UID m.GID with
      | some e => ([.lockThread, .createFile target, .mountBindSys src target,
          .chownFile target m.UID m.GID],
          some ("Failed to change ownership for \"" ++ target ++ "\": " ++ e), st1)
      | none =>
        if readOnly then
          match w.remountRes src target with
          | some e => ([.lockThread, .createFile target, .mountBindSys src target,
              .chownFile target m.UID m.GID, .remountReadOnly src target],
              some ("Failed to mount \"" ++ target ++ "\": " ++ e), st1)
          | none => ([.lockThread, .createFile target, .mountBindSys src target,
              .chownFile target m.UID m.GID, .remountReadOnly src target], none, st1)
        else
          ([.lockThread, .createFile target, .mountBindSys src target,
            .chownFile target m.UID m.GID], none, st1)

/-- `mounter.Close()` (mount.go lines 62–64): only `runtime.UnlockOSThread`
— the pin count drops, the namespace association is untouched. -/
def mounterClose (st : ThreadState) : List FsEvent × ThreadState :=
  ([.unlockThread], { st with lockCount := st.lockCount - 1 })

/-- The `nsFormat` path `"/proc/%d/ns"` (mount.go line 66). -/
def nsFormatPath (pid : Int) : String := "/proc/" ++ itoa pid ++ "/ns"

/-- `mounter.EnterNS(pid)` (mount.go lines 68–83): open the target's
namespace handle and `Setns` the calling thread into it; on success the
thread's namespace becomes the target process's mount namespace. -/
def mounterEnterNS (w : SysWorld) (m : Mounter) (pid : Int) (st : ThreadState) :
    List FsEvent × Option GoError × ThreadState :=
  let nstypePath := filepathJoin [nsFormatPath pid, m.NSType]
  match w.openRes nstypePath with
  | some e => ([.openNSFile nstypePath],
      some ("failed to open " ++ m.NSType ++ " namespace: " ++ e), st)
  | none =>
    match w.setnsRes nstypePath with
    | some e => ([.openNSFile nstypePath], some ("failed to setns: " ++ e), st)
    | none => ([.openNSFile nstypePath, .setNS (w.mntNSOf pid)], none,
        { st with ns := w.mntNSOf pid })

/-- Scenario driver for the claimed state machine: a sequence of
`(src, target, readOnly)` mount calls, each of which may fail, run in order
(failures do not stop the sequence — the caller decides). -/
def runMounts (w : SysWorld) (m : Mounter) :
    List (String × String × Bool) → ThreadState → List FsEvent × ThreadState
  | [], st => ([], st)
  | (src, target, ro) :: rest, st =>
    ((mounterMount w m src target ro st).1
        ++ (runMounts w m rest (mounterMount w m src target ro st).2.2).1,
      (runMounts w m rest (mounterMount w m src target ro st).2.2).2)

/-- `mounter.Mount` never changes the thread's namespace association. -/
theorem mounterMount_ns (w : SysWorld) (m : Mounter) (src target : String)
    (ro : Bool) (st : ThreadState) :
    (mounterMount w m src target ro st).2.2.ns = st.ns := by
  simp only [mounterMount]
  cases w.createRes target <;> cases w.mountRes src target <;>
    cases w.chownRes target m.UID m.GID <;> cases ro <;>
    cases w.remountRes src target <;> rfl

/-- No sequence of mount calls changes the thread's namespace association. -/
theorem runMounts_ns (w : SysWorld) (m : Mounter)
    (calls : List (String × String × Bool)) :
    ∀ st : ThreadState, (runMounts w m calls st).2.ns = st.ns := by
  induction calls with
  | nil => intro st; rfl
  | cons c rest ih =>
    intro st
    obtain ⟨src, target, ro⟩ := c
    simp only [runMounts]
    rw [ih]
    exact mounterMount_ns w m src target ro st

/-- Concrete world for the C7 scenario: process 42 lives in mount namespace
5, the namespace handle opens and `Setns` succeeds, and every bind
`syscall.Mount` fails (the fault-injected mount of the claim). -/
def nsWorld : SysWorld :=
  { mntNSOf := fun pid => if pid = 42 then 5 else 0,
    openRes := fun _ => none,
    setnsRes := fun _ => none,
    createRes := fun _ => none,
    mountRes := fun _ _ => some "injected mount failure",
    chownRes := fun _ _ _ => none,
    remountRes := fun _ _ => none }

/-- The mounter of the C7 scenario. -/
def mnt0 : Mounter := ⟨123, 100, mntNSType⟩

/-- C7 counterexample: starting from a thread in namespace 0, `EnterNS(42)`
succeeds and moves the thread into namespace 5, an intermediate `Mount`
fails, and `Close` — which only unpins the thread — leaves the thread's
namespace association at 5, not the pre-enter value 0: release does not
restore the calling thread's namespace association. -/
theorem claim7_counterexample :
    (mounterEnterNS nsWorld mnt0 42 ⟨0, 0⟩).2.1 = none
    ∧ (mounterEnterNS nsWorld mnt0 42 ⟨0, 0⟩).2.2.ns = 5
    ∧ (mounterMount nsWorld mnt0 "/img/vmlinux" "/jail/vmlinux" false
        (mounterEnterNS nsWorld mnt0 42 ⟨0, 0⟩).2.2).2.1
        = some "Failed to mount \"/jail/vmlinux\": injected mount failure"
    ∧ (mounterClose (mounterMount nsWorld mnt0 "/img/vmlinux" "/jail/vmlinux" false
        (mounterEnterNS nsWorld mnt0 42 ⟨0, 0⟩).2.2).2.2).2.ns = 5
    ∧ (mounterClose (mounterMount nsWorld mnt0 "/img/vmlinux" "/jail/vmlinux" false
        (mounterEnterNS nsWorld mnt0 42 ⟨0, 0⟩).2.2).2.2).2.ns
        ≠ (ThreadState.mk 0 0).ns := by
  refine ⟨by decide, by decide, by decide, by decide, by decide⟩

/-- C7 (amended): after a successful `enterNamespace(pid)`, the calling
thread's namespace association is the target process's mount namespace, and
it remains so through any sequence of mount calls (failing or not) and
through `release`, which only unpins the thread (dropping the pin count) and
restores nothing: the pre-enter namespace association is never restored on
any exit path. -/
theorem claim7_release_keeps_foreign_ns (w : SysWorld) (m : Mounter) (pid : Int)
    (st : ThreadState) (calls : List (String × String × Bool))
    (hopen : w.openRes (filepathJoin [nsFormatPath pid, m.NSType]) = none)
    (hsetns : w.setnsRes (filepathJoin [nsFormatPath pid, m.NSType]) = none) :
    (mounterEnterNS w m pid st).2.1 = none
    ∧ (mounterEnterNS w m pid st).2.2.ns = w.mntNSOf pid
    ∧ (mounterClose (runMounts w m calls (mounterEnterNS w m pid st).2.2).2).2.ns
        = w.mntNSOf pid
    ∧ ∀ s : ThreadState, mounterClose s = ([.unlockThread], ⟨s.lockCount - 1, s.ns⟩) := by
  refine ⟨?_, ?_, ?_, fun s => rfl⟩
  · simp [mounterEnterNS, hopen, hsetns]
  · simp [mounterEnterNS, hopen, hsetns]
  · show (runMounts w m calls (mounterEnterNS w m pid st).2.2).2.ns = w.mntNSOf pid
    rw [runMounts_ns]
    simp [mounterEnterNS, hopen, hsetns]

/-- Witness for the amended C7 in the concrete scenario: enter namespace 5
via pid 42, run one failing mount, release — the thread is still associated
with namespace 5, the target's. -/
theorem claim7_release_keeps_foreign_ns_witness :
    nsWorld.openRes (filepathJoin [nsFormatPath 42, mnt0.NSType]) = none
    ∧ nsWorld.setnsRes (filepathJoin [nsFormatPath 42, mnt0.NSType]) = none
    ∧ (mounterClose (runMounts nsWorld mnt0 [("/img/vmlinux", "/jail/vmlinux", false)]
        (mounterEnterNS nsWorld mnt0 42 ⟨0, 0⟩).2.2).2).2.ns = nsWorld.mntNSOf 42 := by
  refine ⟨rfl, rfl, ?_⟩
  exact (claim7_release_keeps_foreign_ns nsWorld mnt0 42 ⟨0, 0⟩
    [("/img/vmlinux", "/jail/vmlinux", false)] rfl rfl).2.2.1

end Firecracker
